import Mathlib

/-!
Shallow embedding of the SIM-activation automation program
(`activate_sim.js` and its near-duplicate server variant).

The program drives a web form: for each ICCID it opens a browser session,
runs up to `maxRetries` activation attempts (each on a fresh page), and
classifies the outcome from text markers on the page.  A round-robin
promise pool bounds concurrency, and a summary tallies the outcomes.

Driver interactions (navigation, element waits, marker waits) are modelled
by a behavior structure saying, for each attempt, which driver calls raise
and which markers appear within their wait windows.  Traces of driver
events are recorded so that resource claims (sessions, pages, clicks) can
be stated.
-/

namespace CmlinkNode

/-- The six outcome statuses produced by `processIccid`. -/
inductive Status where
  | success
  | already_activated
  | processing
  | invalid_iccid
  | activation_failed
  | error
deriving DecidableEq, Repr

/-- A terminal outcome record `{iccid, status, error_detail}`. -/
structure Outcome where
  iccid : String
  status : Status
  error_detail : String
deriving DecidableEq, Repr

/-- Marker text awaited at step 1 (check 1) and again at step 2 (check 1):
`text=Your SIM card has been successfully activated`. -/
def activatedText : String := "Your SIM card has been successfully activated"

/-- Marker detail recorded for the system-issue branch. -/
def systemIssueText : String := "The system is currently experiencing some issues"

/-- Detail recorded for the processing branches. -/
def processingDetailText : String :=
  "Your activation order is being processed, please try again later"

/-- Detail recorded when neither step-2 marker appears. -/
def noResponseText : String := "No expected response received"

/-- Driver events emitted by an attempt; session/page events carry ids so
resource isolation can be stated.  `sid` identifies the browser session
(`initBrowser` result), `pid` the page within it (`context.newPage`). -/
inductive Event where
  | openSession (sid : Nat)
  | closeSession (sid : Nat)
  | openPage (sid : Nat) (pid : Nat)
  | closePage (pid : Nat)
  | navigate (pid : Nat)
  | mouseMove (pid : Nat)
  | scroll (pid : Nat)
  | delay (pid : Nat)
  | fillInput (pid : Nat) (iccid : String)
  | clickNext (pid : Nat)
  | clickActivate (pid : Nat)
deriving DecidableEq, Repr

/-- Behavior of the driver during one attempt: which of the fallible calls
raises (with what message), and which outcome markers appear within their
own 5s wait windows after the corresponding click. -/
structure AttemptBehavior where
  /-- `page.goto` raises (navigation failure / timeout). -/
  gotoFails : Option String
  /-- `waitForSelector`/`fill` on the ICCID input raises. -/
  fillFails : Option String
  /-- `waitForSelector`/`click` on the Next Step button raises. -/
  nextFails : Option String
  /-- already-activated marker appears within its step-1 window. -/
  s1_already : Bool
  /-- system-issue marker appears within its step-1 window. -/
  s1_issue : Bool
  /-- processing marker appears within its step-1 window. -/
  s1_processing : Bool
  /-- `waitForSelector`/`click` on the Activate Now button raises. -/
  activateFails : Option String
  /-- success marker appears within its step-2 window. -/
  s2_success : Bool
  /-- processing marker appears within its step-2 window. -/
  s2_processing : Bool
deriving Repr

/-- One activation attempt (the body of the inner `try` of `processIccid`
in `activate_sim.js`): navigate, fill the ICCID, scroll with a random
delay, click Next Step, then check the three step-1 markers in priority
order (already-activated, system-issue, processing), each with its own
independent timeout window; if none appears, click Activate Now and check
the two step-2 markers (success, processing), defaulting to
`activation_failed`.  Returns the event trace of completed driver ops and
either a classified `Outcome` or the raised failure message. -/
def runAttempt (iccid : String) (pid : Nat) (ab : AttemptBehavior) :
    List Event × Except String Outcome :=
  match ab.gotoFails with
  | some msg => ([], Except.error msg)
  | none =>
    match ab.fillFails with
    | some msg => ([Event.navigate pid], Except.error msg)
    | none =>
      match ab.nextFails with
      | some msg =>
        ([Event.navigate pid, Event.fillInput pid iccid, Event.scroll pid,
          Event.delay pid], Except.error msg)
      | none =>
        let evs := [Event.navigate pid, Event.fillInput pid iccid,
          Event.scroll pid, Event.delay pid, Event.clickNext pid]
        if ab.s1_already then
          (evs, Except.ok ⟨iccid, Status.already_activated, activatedText⟩)
        else if ab.s1_issue then
          (evs, Except.ok ⟨iccid, Status.invalid_iccid, systemIssueText⟩)
        else if ab.s1_processing then
          (evs, Except.ok ⟨iccid, Status.processing, processingDetailText⟩)
        else
          match ab.activateFails with
          | some msg => (evs, Except.error msg)
          | none =>
            let evs2 := evs ++ [Event.clickActivate pid]
            if ab.s2_success then
              (evs2, Except.ok ⟨iccid, Status.success, activatedText⟩)
            else if ab.s2_processing then
              (evs2, Except.ok ⟨iccid, Status.processing, processingDetailText⟩)
            else
              (evs2, Except.ok ⟨iccid, Status.activation_failed, noResponseText⟩)

/-- One activation attempt in the server variant (`part_001`): identical to
`runAttempt` except for extra humanizing ops (random mouse move plus a
200-500ms random delay) after navigation and before filling. -/
def runAttemptV2 (iccid : String) (pid : Nat) (ab : AttemptBehavior) :
    List Event × Except String Outcome :=
  match ab.gotoFails with
  | some msg => ([], Except.error msg)
  | none =>
    match ab.fillFails with
    | some msg =>
      ([Event.navigate pid, Event.mouseMove pid, Event.delay pid], Except.error msg)
    | none =>
      match ab.nextFails with
      | some msg =>
        ([Event.navigate pid, Event.mouseMove pid, Event.delay pid,
          Event.fillInput pid iccid, Event.scroll pid, Event.delay pid],
         Except.error msg)
      | none =>
        let evs := [Event.navigate pid, Event.mouseMove pid, Event.delay pid,
          Event.fillInput pid iccid, Event.scroll pid, Event.delay pid,
          Event.clickNext pid]
        if ab.s1_already then
          (evs, Except.ok ⟨iccid, Status.already_activated, activatedText⟩)
        else if ab.s1_issue then
          (evs, Except.ok ⟨iccid, Status.invalid_iccid, systemIssueText⟩)
        else if ab.s1_processing then
          (evs, Except.ok ⟨iccid, Status.processing, processingDetailText⟩)
        else
          match ab.activateFails with
          | some msg => (evs, Except.error msg)
          | none =>
            let evs2 := evs ++ [Event.clickActivate pid]
            if ab.s2_success then
              (evs2, Except.ok ⟨iccid, Status.success, activatedText⟩)
            else if ab.s2_processing then
              (evs2, Except.ok ⟨iccid, Status.processing, processingDetailText⟩)
            else
              (evs2, Except.ok ⟨iccid, Status.activation_failed, noResponseText⟩)

/-- Driver behavior for one identifier across its whole `processIccid`
call: whether `initBrowser` (`chromium.launch` + `newContext`) raises,
whether `context.newPage` raises on attempt `k`, and the per-attempt
driver behavior. -/
structure IccidBehavior where
  /-- `initBrowser` raises (browser launch failure). -/
  launchFails : Option String
  /-- `context.newPage` raises on attempt `k`. -/
  newPageFails : Nat → Option String
  /-- driver behavior of attempt `k`. -/
  attempts : Nat → AttemptBehavior

/-- The retry loop of `processIccid` (`for (let attempt = 0; ...)`),
starting at attempt index `k` with `r` iterations remaining and `cur` the
current value of the mutable `result` variable.  A `newPage` failure
escapes to the outer catch, which records the message and returns (so it
short-circuits remaining retries); a classified outcome returns
immediately; a raised attempt failure records the message (inner catch)
and continues; in all attempt paths the page is closed in the `finally`. -/
def attemptsFrom (iccid : String) (sid : Nat) (bh : IccidBehavior) :
    Nat → Nat → Outcome → List Event × Outcome
  | _, 0, cur => ([], cur)
  | k, r + 1, cur =>
    match bh.newPageFails k with
    | some msg => ([], { cur with error_detail := msg })
    | none =>
      let a := runAttempt iccid k (bh.attempts k)
      let evs := Event.openPage sid k :: (a.1 ++ [Event.closePage k])
      match a.2 with
      | Except.ok out => (evs, out)
      | Except.error msg =>
        let rest := attemptsFrom iccid sid bh (k + 1) r { cur with error_detail := msg }
        (evs ++ rest.1, rest.2)

/-- `processIccid` from `activate_sim.js`: open one browser session for
the identifier, run the retry loop (each attempt on a fresh page), close
the browser in the outer `finally`, and return the result.  If
`initBrowser` itself raises, `processIccid` rejects (the launch happens
before any try/catch), modelled by `Except.error`.  The mutable `result`
starts as `{iccid, status: error, error_detail: empty}`. -/
def processIccid (iccid : String) (sid : Nat) (bh : IccidBehavior) (maxRetries : Nat) :
    List Event × Except String Outcome :=
  match bh.launchFails with
  | some msg => ([], Except.error msg)
  | none =>
    let r := attemptsFrom iccid sid bh 0 maxRetries ⟨iccid, Status.error, ""⟩
    (Event.openSession sid :: (r.1 ++ [Event.closeSession sid]), Except.ok r.2)

/-- The retry loop of the server variant's `processIccid` (`part_001`),
identical to `attemptsFrom` but running `runAttemptV2`. -/
def attemptsFromV2 (iccid : String) (sid : Nat) (bh : IccidBehavior) :
    Nat → Nat → Outcome → List Event × Outcome
  | _, 0, cur => ([], cur)
  | k, r + 1, cur =>
    match bh.newPageFails k with
    | some msg => ([], { cur with error_detail := msg })
    | none =>
      let a := runAttemptV2 iccid k (bh.attempts k)
      let evs := Event.openPage sid k :: (a.1 ++ [Event.closePage k])
      match a.2 with
      | Except.ok out => (evs, out)
      | Except.error msg =>
        let rest := attemptsFromV2 iccid sid bh (k + 1) r { cur with error_detail := msg }
        (evs ++ rest.1, rest.2)

/-- `processIccid` from the server variant (`part_001`). -/
def processIccidV2 (iccid : String) (sid : Nat) (bh : IccidBehavior) (maxRetries : Nat) :
    List Event × Except String Outcome :=
  match bh.launchFails with
  | some msg => ([], Except.error msg)
  | none =>
    let r := attemptsFromV2 iccid sid bh 0 maxRetries ⟨iccid, Status.error, ""⟩
    (Event.openSession sid :: (r.1 ++ [Event.closeSession sid]), Except.ok r.2)

/-- The promise-pool distribution of `main`: `pool.shift()` takes the
front slot, the new task is chained onto it, and the slot is pushed to the
back (`pool.push(worker.then(...))`).  Each slot value is the ordered list
of work items chained onto that slot.  An empty pool (K = 0) is a crash in
the source (`undefined.then`); modelled as the empty result. -/
def sched {α : Type} : List (List α) → List α → List (List α)
  | pool, [] => pool
  | [], _ :: _ => []
  | w :: ps, x :: rest => sched (ps ++ [w ++ [x]]) rest

/-- Run one slot's chain sequentially: each task awaits `processIccid`
(with the source's default `maxRetries = 2`) and pushes the outcome.  If
`processIccid` rejects, the rejection propagates through the chain: the
remaining tasks of this slot never run and the chain carries the rejection
message. -/
def runChain (bh : String → IccidBehavior) :
    List (Nat × String) → List Outcome × Option String
  | [] => ([], none)
  | (sid, id) :: rest =>
    match (processIccid id sid (bh id) 2).2 with
    | Except.error msg => ([], some msg)
    | Except.ok out =>
      let r := runChain bh rest
      (out :: r.1, r.2)

/-- The slot chains of a run: identifiers (tagged with their input index,
which serves as the session id) distributed round-robin over `K` slots. -/
def chainsOf (iccids : List String) (K : Nat) : List (List (Nat × String)) :=
  sched (List.replicate K []) iccids.enum

/-- `main`: distribute the identifiers over the `K`-slot pool, run every
chain, and `Promise.all` the slots.  If any chain rejected, `main` rejects
(no result collection is reported); otherwise the collected outcome list
is the fan-in of the chains' outcomes. -/
def mainModel (iccids : List String) (K : Nat) (bh : String → IccidBehavior) :
    Except String (List Outcome) :=
  let runs := (chainsOf iccids K).map (runChain bh)
  match runs.findSome? (fun r => r.2) with
  | some msg => Except.error msg
  | none => Except.ok (runs.map Prod.fst).flatten

/-- The run summary of the server variant's `main`: tallies of the outcome
collection, with `failed` counting both `activation_failed` and `error`
and `total` the number of scheduled identifiers. -/
structure Summary where
  total : Nat
  success : Nat
  already_activated : Nat
  processing : Nat
  invalid : Nat
  failed : Nat
deriving DecidableEq, Repr

/-- `summary` computation from the server variant's `main` (`part_001`):
filter-and-count per status over the results. -/
def mkSummary (totalIccids : Nat) (results : List Outcome) : Summary where
  total := totalIccids
  success := (results.filter (fun r => r.status = Status.success)).length
  already_activated :=
    (results.filter (fun r => r.status = Status.already_activated)).length
  processing := (results.filter (fun r => r.status = Status.processing)).length
  invalid := (results.filter (fun r => r.status = Status.invalid_iccid)).length
  failed := (results.filter (fun r =>
    r.status = Status.activation_failed ∨ r.status = Status.error)).length

/-- The failure message of attempt `k` for this identifier, if that
attempt raises rather than classifying (page id of attempt `k` is `k`). -/
def attemptFailureMsg (iccid : String) (bh : IccidBehavior) (k : Nat) : Option String :=
  match (runAttempt iccid k (bh.attempts k)).2 with
  | Except.error m => some m
  | Except.ok _ => none

/-- Recognizes `openSession` events. -/
def isOpenSessionEv : Event → Bool
  | Event.openSession _ => true
  | _ => false

/-- Recognizes `closeSession` events. -/
def isCloseSessionEv : Event → Bool
  | Event.closeSession _ => true
  | _ => false

/-- Recognizes `openPage` events for page `p`. -/
def isOpenPageEv (p : Nat) : Event → Bool
  | Event.openPage _ q => q == p
  | _ => false

/-- Recognizes `closePage` events for page `p`. -/
def isClosePageEv (p : Nat) : Event → Bool
  | Event.closePage q => q == p
  | _ => false

/-- Recognizes `openPage` events for any page. -/
def isAnyOpenPageEv : Event → Bool
  | Event.openPage _ _ => true
  | _ => false

/-- Recognizes in-page driver actions (everything except session/page
lifecycle events). -/
def isPageAction : Event → Bool
  | Event.openSession _ => false
  | Event.closeSession _ => false
  | Event.openPage _ _ => false
  | Event.closePage _ => false
  | _ => true

/-- Timing abstraction of one run of `main`'s promise pool: task `j` of
slot `c` occupies the wall-clock interval from `startT c j` to `finT c j`,
and its browser session is open from `sessOpenT c j` to `sessCloseT c j`.
The constraints are exactly what the chained-promise pool guarantees:
tasks of the same slot are serialized (`worker.then` starts a task only
after the previous settles), and `processIccid` opens its session after
the task starts and closes it in its outer `finally` before the task
settles. -/
structure PoolExec where
  /-- start instant of task `j` on slot `c`. -/
  startT : Nat → Nat → Nat
  /-- settle instant of task `j` on slot `c`. -/
  finT : Nat → Nat → Nat
  /-- instant the task's browser session opens. -/
  sessOpenT : Nat → Nat → Nat
  /-- instant the task's browser session closes. -/
  sessCloseT : Nat → Nat → Nat
  /-- a task settles no earlier than it starts. -/
  start_le_fin : ∀ c j, startT c j ≤ finT c j
  /-- promise chaining: task `j + 1` of a slot starts only after task `j`
  settles. -/
  chain_serial : ∀ c j, finT c j ≤ startT c (j + 1)
  /-- the session opens after the task starts. -/
  sess_after_start : ∀ c j, startT c j ≤ sessOpenT c j
  /-- the session closes after it opens. -/
  sess_open_le_close : ∀ c j, sessOpenT c j ≤ sessCloseT c j
  /-- the session closes before the task settles. -/
  sess_before_fin : ∀ c j, sessCloseT c j ≤ finT c j

/-- A nontrivial example execution: task `j` runs on `[2j, 2j + 1]`. -/
instance : Inhabited PoolExec :=
  ⟨{ startT := fun _ j => 2 * j
     finT := fun _ j => 2 * j + 1
     sessOpenT := fun _ j => 2 * j
     sessCloseT := fun _ j => 2 * j + 1
     start_le_fin := fun _ j => by dsimp only; omega
     chain_serial := fun _ j => by dsimp only; omega
     sess_after_start := fun _ j => by dsimp only; omega
     sess_open_le_close := fun _ j => by dsimp only; omega
     sess_before_fin := fun _ j => by dsimp only; omega }⟩

/-- The scheduled tasks of a run: pairs `(c, j)` with `c` a slot index
below `K` and `j` an index into that slot's chain. -/
def taskSet (iccids : List String) (K : Nat) : Finset (Nat × Nat) :=
  (Finset.range K ×ˢ Finset.range (iccids.length + 1)).filter
    (fun cj => cj.2 < ((chainsOf iccids K).getD cj.1 []).length)

/-- The tasks whose browser session is open at instant `t` in execution
`ex` of the run over `iccids` with `K` slots. -/
def openSessionsAt (iccids : List String) (K : Nat) (ex : PoolExec) (t : Nat) :
    Finset (Nat × Nat) :=
  (taskSet iccids K).filter
    (fun cj => ex.sessOpenT cj.1 cj.2 ≤ t ∧ t < ex.sessCloseT cj.1 cj.2)

/-- Driver stub: a fully successful attempt reaching the step-2 success
marker. -/
def exAbOk : AttemptBehavior :=
  ⟨none, none, none, false, false, false, none, true, false⟩

/-- Driver stub: all three step-1 marker texts present in their windows;
the already-activated marker is checked first. -/
def exAbAlready : AttemptBehavior :=
  ⟨none, none, none, true, true, true, none, false, false⟩

/-- Driver stub: no marker ever appears; both clicks succeed. -/
def exAbNoResponse : AttemptBehavior :=
  ⟨none, none, none, false, false, false, none, false, false⟩

/-- Driver stub: navigation times out. -/
def exAbNavFail : AttemptBehavior :=
  ⟨some "Timeout 30000ms exceeded", none, none, false, false, false, none, false, false⟩

/-- Driver stub: the ICCID input never resolves. -/
def exAbInputFail : AttemptBehavior :=
  ⟨none, some "element not found", none, false, false, false, none, false, false⟩

/-- Identifier behavior: both attempts raise (attempt 0 a navigation
timeout, attempt 1 a missing element). -/
def exBhAllRaise : IccidBehavior :=
  ⟨none, fun _ => none, fun k => if k = 0 then exAbNavFail else exAbInputFail⟩

/-- Identifier behavior: attempt 0 raises, attempt 1 classifies. -/
def exBhRetryOk : IccidBehavior :=
  ⟨none, fun _ => none, fun k => if k = 0 then exAbNavFail else exAbOk⟩

/-- Identifier behavior: the browser launch itself raises. -/
def exBhLaunchFail : IccidBehavior :=
  ⟨some "browser launch failed", fun _ => none, fun _ => exAbOk⟩

/-- Identifier behavior: everything succeeds. -/
def exBhOk : IccidBehavior :=
  ⟨none, fun _ => none, fun _ => exAbOk⟩

theorem runAttempt_actions (iccid : String) (pid : Nat) (ab : AttemptBehavior) :
    ∀ e ∈ (runAttempt iccid pid ab).1, isPageAction e = true := by
  intro e he
  unfold runAttempt at he
  rcases hg : ab.gotoFails with _ | m <;> rw [hg] at he <;>
    [skip; (simp_all [isPageAction] <;> cases e <;> simp_all)]
  rcases hf : ab.fillFails with _ | m <;> rw [hf] at he <;>
    [skip; (simp_all [isPageAction] <;> cases e <;> simp_all)]
  rcases hn : ab.nextFails with _ | m <;> rw [hn] at he <;>
    [skip; (simp_all [isPageAction] <;> cases e <;> simp_all)]
  rcases ha : ab.activateFails with _ | m <;> rw [ha] at he <;>
    rcases h1 : ab.s1_already <;> rcases h2 : ab.s1_issue <;>
    rcases h3 : ab.s1_processing <;> rcases h4 : ab.s2_success <;>
    rcases h5 : ab.s2_processing <;> simp_all [isPageAction] <;>
    cases e <;> simp_all

theorem runAttempt_iccid (iccid : String) (pid : Nat) (ab : AttemptBehavior)
    (out : Outcome) (h : (runAttempt iccid pid ab).2 = Except.ok out) :
    out.iccid = iccid := by
  unfold runAttempt at h
  rcases hg : ab.gotoFails with _ | m <;> rw [hg] at h <;> [skip; simp_all]
  rcases hf : ab.fillFails with _ | m <;> rw [hf] at h <;> [skip; simp_all]
  rcases hn : ab.nextFails with _ | m <;> rw [hn] at h <;> [skip; simp_all]
  rcases ha : ab.activateFails with _ | m <;> rw [ha] at h <;>
    rcases h1 : ab.s1_already <;> rcases h2 : ab.s1_issue <;>
    rcases h3 : ab.s1_processing <;> rcases h4 : ab.s2_success <;>
    rcases h5 : ab.s2_processing <;> simp_all <;> subst h <;> rfl

theorem runAttempt_v2_same_result (iccid : String) (pid : Nat) (ab : AttemptBehavior) :
    (runAttemptV2 iccid pid ab).2 = (runAttempt iccid pid ab).2 := by
  unfold runAttempt runAttemptV2
  rcases hg : ab.gotoFails with _ | m <;> simp only []
  rcases hf : ab.fillFails with _ | m <;> simp only []
  rcases hn : ab.nextFails with _ | m <;> simp only []
  rcases ha : ab.activateFails with _ | m <;>
    rcases h1 : ab.s1_already <;> rcases h2 : ab.s1_issue <;>
    rcases h3 : ab.s1_processing <;> rcases h4 : ab.s2_success <;>
    rcases h5 : ab.s2_processing <;> simp_all

theorem pageAction_not_openSession (e : Event) (h : isPageAction e = true) :
    isOpenSessionEv e = false := by
  cases e <;> simp_all [isPageAction, isOpenSessionEv]

theorem pageAction_not_closeSession (e : Event) (h : isPageAction e = true) :
    isCloseSessionEv e = false := by
  cases e <;> simp_all [isPageAction, isCloseSessionEv]

theorem pageAction_not_openPage (p : Nat) (e : Event) (h : isPageAction e = true) :
    isOpenPageEv p e = false := by
  cases e <;> simp_all [isPageAction, isOpenPageEv]

theorem pageAction_not_closePage (p : Nat) (e : Event) (h : isPageAction e = true) :
    isClosePageEv p e = false := by
  cases e <;> simp_all [isPageAction, isClosePageEv]

theorem pageAction_not_anyOpenPage (e : Event) (h : isPageAction e = true) :
    isAnyOpenPageEv e = false := by
  cases e <;> simp_all [isPageAction, isAnyOpenPageEv]

theorem runAttempt_trace_countP (iccid : String) (pid : Nat) (ab : AttemptBehavior)
    (p : Event → Bool) (hp : ∀ e, isPageAction e = true → p e = false) :
    ((runAttempt iccid pid ab).1).countP p = 0 := by
  rw [List.countP_eq_zero]
  intro a ha
  have h := runAttempt_actions iccid pid ab a ha
  simp [hp a h]

theorem attemptsFrom_iccid (iccid : String) (sid : Nat) (bh : IccidBehavior) :
    ∀ (r k : Nat) (cur : Outcome), cur.iccid = iccid →
      ((attemptsFrom iccid sid bh k r cur).2).iccid = iccid := by
  intro r
  induction r with
  | zero => intro k cur h; simpa [attemptsFrom] using h
  | succ r ih =>
    intro k cur h
    rcases hnp : bh.newPageFails k with _ | m
    · rcases hres : (runAttempt iccid k (bh.attempts k)).2 with m | out
      · simp only [attemptsFrom, hnp, hres]
        exact ih (k + 1) { cur with error_detail := m } (by simpa using h)
      · simp only [attemptsFrom, hnp, hres]
        exact runAttempt_iccid iccid k (bh.attempts k) out hres
    · simp only [attemptsFrom, hnp]
      simpa using h

theorem attemptsFrom_trace (iccid : String) (sid : Nat) (bh : IccidBehavior) (p : Nat) :
    ∀ (r k : Nat) (cur : Outcome),
      ((attemptsFrom iccid sid bh k r cur).1).countP isOpenSessionEv = 0 ∧
      ((attemptsFrom iccid sid bh k r cur).1).countP isCloseSessionEv = 0 ∧
      ((attemptsFrom iccid sid bh k r cur).1).countP (isOpenPageEv p) =
        ((attemptsFrom iccid sid bh k r cur).1).countP (isClosePageEv p) ∧
      ((attemptsFrom iccid sid bh k r cur).1).countP (isOpenPageEv p) ≤ 1 ∧
      (p < k → ((attemptsFrom iccid sid bh k r cur).1).countP (isOpenPageEv p) = 0) := by
  intro r
  induction r with
  | zero => intro k cur; simp [attemptsFrom]
  | succ r ih =>
    intro k cur
    rcases hnp : bh.newPageFails k with _ | m
    · have hos := runAttempt_trace_countP iccid k (bh.attempts k) isOpenSessionEv
        (fun e he => pageAction_not_openSession e he)
      have hcs := runAttempt_trace_countP iccid k (bh.attempts k) isCloseSessionEv
        (fun e he => pageAction_not_closeSession e he)
      have hop := runAttempt_trace_countP iccid k (bh.attempts k) (isOpenPageEv p)
        (fun e he => pageAction_not_openPage p e he)
      have hcp := runAttempt_trace_countP iccid k (bh.attempts k) (isClosePageEv p)
        (fun e he => pageAction_not_closePage p e he)
      rcases hres : (runAttempt iccid k (bh.attempts k)).2 with m | out
      · obtain ⟨ih1, ih2, ih3, ih4, ih5⟩ :=
          ih (k + 1) { cur with error_detail := m }
        simp only [attemptsFrom, hnp, hres]
        refine ⟨?_, ?_, ?_, ?_, ?_⟩
        · simp [List.countP_cons, List.countP_append, isOpenSessionEv, hos, ih1]
        · simp [List.countP_cons, List.countP_append, isCloseSessionEv, hcs, ih2]
        · by_cases hpk : k = p
          · subst hpk
            have h5 := ih5 (by omega)
            have hc5 := ih3 ▸ h5
            simp [List.countP_cons, List.countP_append, isOpenPageEv, isClosePageEv,
              hop, hcp, h5, hc5]
          · simp [List.countP_cons, List.countP_append, isOpenPageEv, isClosePageEv,
              hop, hcp, ih3, hpk]
        · by_cases hpk : k = p
          · subst hpk
            have h5 := ih5 (by omega)
            simp [List.countP_cons, List.countP_append, isOpenPageEv, hop, h5]
          · simp [List.countP_cons, List.countP_append, isOpenPageEv, hop, hpk, ih4]
        · intro hlt
          have hpk : ¬ (k = p) := by omega
          have h5 := ih5 (by omega)
          simp [List.countP_cons, List.countP_append, isOpenPageEv, hop, hpk, h5]
      · simp only [attemptsFrom, hnp, hres]
        by_cases hpk : k = p
        · subst hpk
          simp [List.countP_cons, List.countP_append, isOpenPageEv, isClosePageEv,
            isOpenSessionEv, isCloseSessionEv, hos, hcs, hop, hcp]
        · simp [List.countP_cons, List.countP_append, isOpenPageEv, isClosePageEv,
            isOpenSessionEv, isCloseSessionEv, hos, hcs, hop, hcp, hpk]
    · simp [attemptsFrom, hnp]

theorem attemptsFrom_exhaust (iccid : String) (sid : Nat) (bh : IccidBehavior) :
    ∀ (r k : Nat) (cur : Outcome) (mlast : String), 0 < r →
      (∀ j, j < r → bh.newPageFails (k + j) = none) →
      (∀ j, j < r → (attemptFailureMsg iccid bh (k + j)).isSome = true) →
      attemptFailureMsg iccid bh (k + r - 1) = some mlast →
      (attemptsFrom iccid sid bh k r cur).2 = { cur with error_detail := mlast } := by
  intro r
  induction r with
  | zero => intro k cur mlast h; exact absurd h (by omega)
  | succ r ih =>
    intro k cur mlast _ hnp hraise hlast
    have hnp0 : bh.newPageFails k = none := by simpa using hnp 0 (by omega)
    have hr0 : (attemptFailureMsg iccid bh k).isSome = true := by
      simpa using hraise 0 (by omega)
    obtain ⟨m, hm⟩ : ∃ m, (runAttempt iccid k (bh.attempts k)).2 = Except.error m := by
      unfold attemptFailureMsg at hr0
      rcases hres : (runAttempt iccid k (bh.attempts k)).2 with m | o
      · exact ⟨m, rfl⟩
      · rw [hres] at hr0; simp at hr0
    rcases Nat.eq_zero_or_pos r with hr | hr
    · subst hr
      have hmsg : attemptFailureMsg iccid bh k = some m := by
        unfold attemptFailureMsg; rw [hm]
      rw [show k + 1 - 1 = k from by omega] at hlast
      rw [hmsg] at hlast
      injection hlast with hm2
      subst hm2
      simp [attemptsFrom, hnp0, hm]
    · have hlast2 : attemptFailureMsg iccid bh (k + 1 + r - 1) = some mlast := by
        rw [show k + 1 + r - 1 = k + (r + 1) - 1 from by omega]; exact hlast
      have hrec := ih (k + 1) { cur with error_detail := m } mlast hr
        (fun j hj => by
          have := hnp (j + 1) (by omega)
          rwa [show k + (j + 1) = k + 1 + j from by omega] at this)
        (fun j hj => by
          have := hraise (j + 1) (by omega)
          rwa [show k + (j + 1) = k + 1 + j from by omega] at this)
        hlast2
      simp [attemptsFrom, hnp0, hm, hrec]

theorem attemptsFrom_classified (iccid : String) (sid : Nat) (bh : IccidBehavior) :
    ∀ (j r k : Nat) (cur : Outcome) (out : Outcome), j < r →
      (∀ i, i < j → bh.newPageFails (k + i) = none ∧
        (attemptFailureMsg iccid bh (k + i)).isSome = true) →
      bh.newPageFails (k + j) = none →
      (runAttempt iccid (k + j) (bh.attempts (k + j))).2 = Except.ok out →
      (attemptsFrom iccid sid bh k r cur).2 = out ∧
      ((attemptsFrom iccid sid bh k r cur).1).countP isAnyOpenPageEv = j + 1 := by
  intro j
  induction j with
  | zero =>
    intro r k cur out hlt hprev hnp hok
    rcases r with _ | r
    · exact absurd hlt (by omega)
    · rw [Nat.add_zero] at hnp hok
      have hz := runAttempt_trace_countP iccid k (bh.attempts k) isAnyOpenPageEv
        (fun e he => pageAction_not_anyOpenPage e he)
      simp [attemptsFrom, hnp, hok, List.countP_cons, List.countP_append,
        isAnyOpenPageEv, hz]
  | succ j ih =>
    intro r k cur out hlt hprev hnp hok
    rcases r with _ | r
    · exact absurd hlt (by omega)
    · have hnp0 : bh.newPageFails k = none := by simpa using (hprev 0 (by omega)).1
      have hr0 : (attemptFailureMsg iccid bh k).isSome = true := by
        simpa using (hprev 0 (by omega)).2
      obtain ⟨m, hm⟩ : ∃ m, (runAttempt iccid k (bh.attempts k)).2 = Except.error m := by
        unfold attemptFailureMsg at hr0
        rcases hres : (runAttempt iccid k (bh.attempts k)).2 with m | o
        · exact ⟨m, rfl⟩
        · rw [hres] at hr0; simp at hr0
      have hz := runAttempt_trace_countP iccid k (bh.attempts k) isAnyOpenPageEv
        (fun e he => pageAction_not_anyOpenPage e he)
      obtain ⟨ih1, ih2⟩ := ih r (k + 1) { cur with error_detail := m } out (by omega)
        (fun i hi => by
          have := hprev (i + 1) (by omega)
          rwa [show k + (i + 1) = k + 1 + i from by omega] at this)
        (by rwa [show k + 1 + j = k + (j + 1) from by omega])
        (by rwa [show k + 1 + j = k + (j + 1) from by omega])
      refine ⟨?_, ?_⟩
      · simp [attemptsFrom, hnp0, hm, ih1]
      · simp [attemptsFrom, hnp0, hm, List.countP_cons, List.countP_append,
          isAnyOpenPageEv, hz, ih2]

theorem processIccid_ok (iccid : String) (sid : Nat) (bh : IccidBehavior) (m : Nat)
    (h : bh.launchFails = none) :
    processIccid iccid sid bh m =
      (Event.openSession sid ::
        ((attemptsFrom iccid sid bh 0 m ⟨iccid, Status.error, ""⟩).1 ++
          [Event.closeSession sid]),
       Except.ok (attemptsFrom iccid sid bh 0 m ⟨iccid, Status.error, ""⟩).2) := by
  unfold processIccid
  rw [h]

theorem sched_flatten_countP {α : Type} (p : α → Bool) :
    ∀ (ids : List α) (pool : List (List α)), pool ≠ [] →
      ((sched pool ids).flatten).countP p =
        (pool.flatten).countP p + ids.countP p := by
  intro ids
  induction ids with
  | nil => intro pool h; simp [sched]
  | cons x rest ih =>
    intro pool h
    rcases pool with _ | ⟨w, ps⟩
    · exact absurd rfl h
    · have hne : (ps ++ [w ++ [x]]) ≠ ([] : List (List α)) := by simp
      rw [show sched (w :: ps) (x :: rest) = sched (ps ++ [w ++ [x]]) rest from rfl]
      rw [ih (ps ++ [w ++ [x]]) hne]
      simp [List.countP_append, List.countP_cons]
      omega

theorem flatten_replicate_nil {α : Type} (K : Nat) :
    (List.replicate K ([] : List α)).flatten = [] := by
  induction K with
  | zero => simp
  | succ K ih => simp [List.replicate, ih]

theorem runChain_ok (bh : String → IccidBehavior) :
    ∀ chain : List (Nat × String),
      (∀ pr ∈ chain, (bh pr.2).launchFails = none) →
      (runChain bh chain).2 = none ∧
      ∀ p : Outcome → Bool,
        ((runChain bh chain).1).countP p =
          chain.countP (fun pr =>
            p ((attemptsFrom pr.2 pr.1 (bh pr.2) 0 2 ⟨pr.2, Status.error, ""⟩).2)) := by
  intro chain
  induction chain with
  | nil => intro h; simp [runChain]
  | cons pr rest ih =>
    intro h
    obtain ⟨sid, id⟩ := pr
    have hl : (bh id).launchFails = none := h (sid, id) (by simp)
    obtain ⟨ih1, ih2⟩ := ih (fun q hq => h q (by simp [hq]))
    have h2 : (processIccid id sid (bh id) 2).2 =
        Except.ok (attemptsFrom id sid (bh id) 0 2 ⟨id, Status.error, ""⟩).2 := by
      rw [processIccid_ok id sid (bh id) 2 hl]
    refine ⟨?_, ?_⟩
    · simp only [runChain, h2]
      exact ih1
    · intro p
      simp only [runChain, h2, List.countP_cons, ih2 p]

theorem mainModel_ok (iccids : List String) (K : Nat) (bh : String → IccidBehavior)
    (hK : 0 < K) (hl : ∀ id ∈ iccids, (bh id).launchFails = none) :
    ∃ outs, mainModel iccids K bh = Except.ok outs ∧
      ∀ p : Outcome → Bool,
        outs.countP p = iccids.enum.countP (fun pr =>
          p ((attemptsFrom pr.2 pr.1 (bh pr.2) 0 2 ⟨pr.2, Status.error, ""⟩).2)) := by
  have hpool : (List.replicate K ([] : List (Nat × String))) ≠ [] := by
    intro hc
    have hlen := congrArg List.length hc
    simp at hlen
    omega
  have hmem : ∀ pr ∈ (chainsOf iccids K).flatten, pr.2 ∈ iccids := by
    intro pr hpr
    have hpos : 0 < ((chainsOf iccids K).flatten).countP (fun x => x == pr) :=
      List.countP_pos.mpr ⟨pr, hpr, by simp⟩
    rw [chainsOf, sched_flatten_countP (fun x => x == pr) iccids.enum
      (List.replicate K []) hpool, flatten_replicate_nil] at hpos
    simp only [List.countP_nil, Nat.zero_add] at hpos
    obtain ⟨q, hq, hqe⟩ := List.countP_pos.mp hpos
    have hqq : q = pr := by simpa using hqe
    subst hqq
    have : q.2 ∈ iccids.enum.map Prod.snd := List.mem_map_of_mem Prod.snd hq
    rwa [List.enum_map_snd] at this
  have hchain : ∀ chain ∈ chainsOf iccids K, ∀ pr ∈ chain,
      (bh pr.2).launchFails = none := by
    intro chain hc pr hpr
    exact hl pr.2 (hmem pr (List.mem_flatten.mpr ⟨chain, hc, hpr⟩))
  have hfs : ((chainsOf iccids K).map (runChain bh)).findSome? (fun r => r.2) = none := by
    rw [List.findSome?_eq_none_iff]
    intro r hr
    obtain ⟨chain, hc, hrc⟩ := List.mem_map.mp hr
    rw [← hrc]
    exact (runChain_ok bh chain (hchain chain hc)).1
  refine ⟨((((chainsOf iccids K).map (runChain bh)).map Prod.fst)).flatten, ?_, ?_⟩
  · simp only [mainModel]
    rw [hfs]
  · intro p
    rw [List.countP_flatten, List.map_map, List.map_map]
    have hpt : ∀ chain ∈ chainsOf iccids K,
        ((List.countP p ∘ Prod.fst) ∘ runChain bh) chain =
          (fun c => c.countP (fun pr =>
            p ((attemptsFrom pr.2 pr.1 (bh pr.2) 0 2 ⟨pr.2, Status.error, ""⟩).2))) chain := by
      intro chain hc
      exact (runChain_ok bh chain (hchain chain hc)).2 p
    rw [List.map_congr_left hpt, ← List.countP_flatten]
    rw [chainsOf, sched_flatten_countP _ iccids.enum (List.replicate K []) hpool,
      flatten_replicate_nil]
    simp

theorem attemptsFromV2_same_result (iccid : String) (sid : Nat) (bh : IccidBehavior) :
    ∀ (r k : Nat) (cur : Outcome),
      (attemptsFromV2 iccid sid bh k r cur).2 = (attemptsFrom iccid sid bh k r cur).2 := by
  intro r
  induction r with
  | zero => intro k cur; rfl
  | succ r ih =>
    intro k cur
    rcases hnp : bh.newPageFails k with _ | m
    · have hv := runAttempt_v2_same_result iccid k (bh.attempts k)
      rcases hres : (runAttempt iccid k (bh.attempts k)).2 with m | out
      · have hres2 : (runAttemptV2 iccid k (bh.attempts k)).2 = Except.error m := by
          rw [hv, hres]
        simp only [attemptsFrom, attemptsFromV2, hnp, hres, hres2]
        exact ih (k + 1) _
      · have hres2 : (runAttemptV2 iccid k (bh.attempts k)).2 = Except.ok out := by
          rw [hv, hres]
        simp only [attemptsFrom, attemptsFromV2, hnp, hres, hres2]
    · simp only [attemptsFrom, attemptsFromV2, hnp]

theorem countP_congr_mem {α : Type} (p q : α → Bool) :
    ∀ l : List α, (∀ a ∈ l, p a = q a) → l.countP p = l.countP q := by
  intro l
  induction l with
  | nil => intro h; simp
  | cons x t ih =>
    intro h
    have hx := h x (by simp)
    simp [List.countP_cons, hx, ih (fun a ha => h a (by simp [ha]))]

theorem outcome_status_partition (l : List Outcome) :
    (l.filter (fun r => r.status = Status.success)).length +
    (l.filter (fun r => r.status = Status.already_activated)).length +
    (l.filter (fun r => r.status = Status.processing)).length +
    (l.filter (fun r => r.status = Status.invalid_iccid)).length +
    (l.filter (fun r => r.status = Status.activation_failed ∨
      r.status = Status.error)).length = l.length := by
  induction l with
  | nil => simp
  | cons o t ih =>
    cases hs : o.status <;> simp [List.filter_cons, hs] at ih ⊢ <;> omega

theorem poolExec_fin_le_start (ex : PoolExec) (c : Nat) :
    ∀ {j j' : Nat}, j < j' → ex.finT c j ≤ ex.startT c j' := by
  intro j j' h
  induction j' with
  | zero => exact absurd h (by omega)
  | succ n ih =>
    rcases Nat.lt_succ_iff_lt_or_eq.mp h with h2 | h2
    · exact le_trans (ih h2) (le_trans (ex.start_le_fin c n) (ex.chain_serial c n))
    · subst h2; exact ex.chain_serial c j

/-- C3: in a single Activation Attempt that reaches the step-1 checks, if
the already-activated marker appears within its own wait window the
attempt terminates with status `already_activated` (whatever the other
markers do) and no Activate Now click ever occurs; the three step-1
markers are checked as a priority-ordered sequence (already-activated,
then system-issue, then processing), each with its own independent
timeout window. -/
theorem c3_step1_priority_already_activated (iccid : String) (pid : Nat)
    (ab : AttemptBehavior) (hg : ab.gotoFails = none) (hf : ab.fillFails = none)
    (hn : ab.nextFails = none) :
    (ab.s1_already = true →
      (runAttempt iccid pid ab).2 =
        Except.ok ⟨iccid, Status.already_activated, activatedText⟩ ∧
      Event.clickActivate pid ∉ (runAttempt iccid pid ab).1) ∧
    (ab.s1_already = false → ab.s1_issue = true →
      (runAttempt iccid pid ab).2 =
        Except.ok ⟨iccid, Status.invalid_iccid, systemIssueText⟩) ∧
    (ab.s1_already = false → ab.s1_issue = false → ab.s1_processing = true →
      (runAttempt iccid pid ab).2 =
        Except.ok ⟨iccid, Status.processing, processingDetailText⟩) := by
  refine ⟨fun h1 => ⟨?_, ?_⟩, fun h1 h2 => ?_, fun h1 h2 h3 => ?_⟩
  · simp [runAttempt, hg, hf, hn, h1]
  · simp [runAttempt, hg, hf, hn, h1]
  · simp [runAttempt, hg, hf, hn, h1, h2]
  · simp [runAttempt, hg, hf, hn, h1, h2, h3]

/-- C3 witness: a concrete driver stub presenting all three step-1 markers
classifies as `already_activated` without an Activate Now click. -/
theorem c3_witness :
    exAbAlready.gotoFails = none ∧ exAbAlready.fillFails = none ∧
    exAbAlready.nextFails = none ∧ exAbAlready.s1_already = true ∧
    ((runAttempt "8944538523000015938" 21 exAbAlready).2 =
      Except.ok ⟨"8944538523000015938", Status.already_activated, activatedText⟩ ∧
     Event.clickActivate 21 ∉ (runAttempt "8944538523000015938" 21 exAbAlready).1) :=
  ⟨rfl, rfl, rfl, rfl,
    (c3_step1_priority_already_activated "8944538523000015938" 21 exAbAlready
      rfl rfl rfl).1 rfl⟩

/-- C4 counterexample: in the attempt where no marker at all appears, the
outcome detail is the string "No expected response received", not the
claimed detail string "no expected response". -/
theorem c4_detail_counterexample :
    (runAttempt "8944538523000015938" 0 exAbNoResponse).2 =
      Except.ok ⟨"8944538523000015938", Status.activation_failed,
        "No expected response received"⟩ ∧
    noResponseText ≠ "no expected response" := by
  refine ⟨rfl, ?_⟩
  decide

/-- C4 (amended): when none of the three step-1 markers appears in its
window, the attempt clicks Activate Now and classifies: success marker →
`success`; otherwise processing marker → `processing`; otherwise
`activation_failed` with detail "No expected response received". -/
theorem c4_step2_classification (iccid : String) (pid : Nat)
    (ab : AttemptBehavior) (hg : ab.gotoFails = none) (hf : ab.fillFails = none)
    (hn : ab.nextFails = none) (h1 : ab.s1_already = false)
    (h2 : ab.s1_issue = false) (h3 : ab.s1_processing = false)
    (ha : ab.activateFails = none) :
    Event.clickActivate pid ∈ (runAttempt iccid pid ab).1 ∧
    (ab.s2_success = true →
      (runAttempt iccid pid ab).2 =
        Except.ok ⟨iccid, Status.success, activatedText⟩) ∧
    (ab.s2_success = false → ab.s2_processing = true →
      (runAttempt iccid pid ab).2 =
        Except.ok ⟨iccid, Status.processing, processingDetailText⟩) ∧
    (ab.s2_success = false → ab.s2_processing = false →
      (runAttempt iccid pid ab).2 =
        Except.ok ⟨iccid, Status.activation_failed, noResponseText⟩) := by
  refine ⟨?_, fun h4 => ?_, fun h4 h5 => ?_, fun h4 h5 => ?_⟩
  · rcases h4 : ab.s2_success <;> rcases h5 : ab.s2_processing <;>
      simp [runAttempt, hg, hf, hn, h1, h2, h3, ha, h4, h5]
  · simp [runAttempt, hg, hf, hn, h1, h2, h3, ha, h4]
  · simp [runAttempt, hg, hf, hn, h1, h2, h3, ha, h4, h5]
  · simp [runAttempt, hg, hf, hn, h1, h2, h3, ha, h4, h5]

/-- C4 witness: the no-marker stub clicks Activate Now and classifies as
`activation_failed` with the code's detail string. -/
theorem c4_witness :
    exAbNoResponse.s1_already = false ∧ exAbNoResponse.s2_success = false ∧
    Event.clickActivate 0 ∈ (runAttempt "8944538523000015938" 0 exAbNoResponse).1 ∧
    (runAttempt "8944538523000015938" 0 exAbNoResponse).2 =
      Except.ok ⟨"8944538523000015938", Status.activation_failed, noResponseText⟩ := by
  refine ⟨rfl, rfl, ?_, ?_⟩
  · exact (c4_step2_classification "8944538523000015938" 0 exAbNoResponse
      rfl rfl rfl rfl rfl rfl rfl).1
  · exact (c4_step2_classification "8944538523000015938" 0 exAbNoResponse
      rfl rfl rfl rfl rfl rfl rfl).2.2.2 rfl rfl

/-- C9: the two near-duplicate `processIccid` implementations return the
same result (classified outcome, exhausted-retries error outcome, or
launch rejection) for every identifier, session, driver behavior and
retry bound; the server variant's extra humanizing driver ops change only
the event trace, never the outcome. -/
theorem c9_variants_equivalent (iccid : String) (sid : Nat) (bh : IccidBehavior)
    (maxRetries : Nat) :
    (processIccidV2 iccid sid bh maxRetries).2 =
      (processIccid iccid sid bh maxRetries).2 := by
  unfold processIccid processIccidV2
  rcases hl : bh.launchFails with _ | msg
  · simp only [attemptsFromV2_same_result]
  · rfl

/-- C10: the `already_activated` classification at step 1 and the
`success` classification at step 2 are detected by the identical marker
text: for every attempt that reaches its step-1 checks and classifies,
which of the two statuses results depends only on whether that marker is
observed before the Activate Now click (step-1 window) or after it
(step-2 window), and in both cases the outcome detail equals that marker
text. -/
theorem c10_same_marker_before_after_click (iccid : String) (pid : Nat)
    (ab : AttemptBehavior) (out : Outcome) (hg : ab.gotoFails = none)
    (hf : ab.fillFails = none) (hn : ab.nextFails = none)
    (h : (runAttempt iccid pid ab).2 = Except.ok out) :
    ((out.status = Status.already_activated ∨ out.status = Status.success) →
      out.error_detail = activatedText) ∧
    (out.status = Status.already_activated ↔ ab.s1_already = true) ∧
    (out.status = Status.success ↔
      (ab.s1_already = false ∧ ab.s1_issue = false ∧ ab.s1_processing = false ∧
       ab.s2_success = true)) ∧
    (out.status = Status.already_activated →
      Event.clickActivate pid ∉ (runAttempt iccid pid ab).1) ∧
    (out.status = Status.success →
      Event.clickActivate pid ∈ (runAttempt iccid pid ab).1) := by
  rcases h1 : ab.s1_already <;> rcases h2 : ab.s1_issue <;>
    rcases h3 : ab.s1_processing <;>
    rcases ha : ab.activateFails with _ | m <;>
    rcases h4 : ab.s2_success <;> rcases h5 : ab.s2_processing <;>
    simp [runAttempt, hg, hf, hn, h1, h2, h3, ha, h4, h5] at h <;>
    subst h <;>
    simp [runAttempt, hg, hf, hn, h1, h2, h3, ha, h4, h5]

/-- C10 witness: with the success-on-step-2 stub the classification is
`success` after the Activate Now click, with detail equal to the shared
marker text. -/
theorem c10_witness :
    (runAttempt "8944538523000015938" 5 exAbOk).2 =
      Except.ok ⟨"8944538523000015938", Status.success, activatedText⟩ ∧
    ((⟨"8944538523000015938", Status.success, activatedText⟩ : Outcome).status =
        Status.success ↔
      (exAbOk.s1_already = false ∧ exAbOk.s1_issue = false ∧
       exAbOk.s1_processing = false ∧ exAbOk.s2_success = true)) :=
  ⟨rfl,
    (c10_same_marker_before_after_click "8944538523000015938" 5 exAbOk
      ⟨"8944538523000015938", Status.success, activatedText⟩
      rfl rfl rfl rfl).2.2.1⟩

/-- C5: if every one of the `maxRetries` attempts raises a failure (page
creation succeeds each time but the attempt raises), the retry wrapper
returns the outcome `{status: error, detail: last failure message}`
instead of raising. -/
theorem c5_retry_exhaustion_error (iccid : String) (sid : Nat) (bh : IccidBehavior)
    (maxRetries : Nat) (mlast : String) (hm : 0 < maxRetries)
    (hl : bh.launchFails = none)
    (hnp : ∀ k, k < maxRetries → bh.newPageFails k = none)
    (hraise : ∀ k, k < maxRetries → (attemptFailureMsg iccid bh k).isSome = true)
    (hlast : attemptFailureMsg iccid bh (maxRetries - 1) = some mlast) :
    (processIccid iccid sid bh maxRetries).2 =
      Except.ok ⟨iccid, Status.error, mlast⟩ := by
  rw [processIccid_ok iccid sid bh maxRetries hl]
  have hres := attemptsFrom_exhaust iccid sid bh maxRetries 0
    ⟨iccid, Status.error, ""⟩ mlast hm
    (fun j hj => by simpa using hnp j hj)
    (fun j hj => by simpa using hraise j hj)
    (by simpa using hlast)
  simp [hres]

/-- C5 witness: a stub raising on both attempts yields the error outcome
carrying the second (last) failure message. -/
theorem c5_witness :
    (0 : Nat) < 2 ∧ exBhAllRaise.launchFails = none ∧
    attemptFailureMsg "8944538523000015938" exBhAllRaise 1 = some "element not found" ∧
    (processIccid "8944538523000015938" 7 exBhAllRaise 2).2 =
      Except.ok ⟨"8944538523000015938", Status.error, "element not found"⟩ :=
  ⟨by decide, rfl, rfl,
    c5_retry_exhaustion_error "8944538523000015938" 7 exBhAllRaise 2
      "element not found" (by decide) rfl (fun k _ => rfl)
      (fun k hk => match k, hk with
        | 0, _ => rfl
        | 1, _ => rfl
        | (n + 2), hk => absurd hk (by omega))
      rfl⟩

/-- C6: whenever an attempt produces a classified outcome (after any
number of earlier raising attempts), the retry wrapper returns that
outcome and performs no further attempt: exactly `k + 1` pages are opened
when attempt `k` classifies. -/
theorem c6_classified_outcome_final (iccid : String) (sid : Nat)
    (bh : IccidBehavior) (maxRetries k : Nat) (out : Outcome)
    (hk : k < maxRetries) (hl : bh.launchFails = none)
    (hprev : ∀ i, i < k → bh.newPageFails i = none ∧
      (attemptFailureMsg iccid bh i).isSome = true)
    (hnp : bh.newPageFails k = none)
    (hok : (runAttempt iccid k (bh.attempts k)).2 = Except.ok out) :
    (processIccid iccid sid bh maxRetries).2 = Except.ok out ∧
    ((processIccid iccid sid bh maxRetries).1).countP isAnyOpenPageEv = k + 1 := by
  obtain ⟨hc1, hc2⟩ := attemptsFrom_classified iccid sid bh k maxRetries 0
    ⟨iccid, Status.error, ""⟩ out hk
    (fun i hi => by simpa using hprev i hi)
    (by simpa using hnp)
    (by simpa using hok)
  rw [processIccid_ok iccid sid bh maxRetries hl]
  constructor
  · simp [hc1]
  · simp [List.countP_cons, List.countP_append, isAnyOpenPageEv, hc2]

/-- C6 witness: attempt 0 raises, attempt 1 classifies `success`; the
wrapper returns the classification after exactly two page opens. -/
theorem c6_witness :
    (1 : Nat) < 2 ∧
    (processIccid "8944538523000015938" 3 exBhRetryOk 2).2 =
      Except.ok ⟨"8944538523000015938", Status.success, activatedText⟩ ∧
    ((processIccid "8944538523000015938" 3 exBhRetryOk 2).1).countP
      isAnyOpenPageEv = 2 :=
  ⟨by decide,
    (c6_classified_outcome_final "8944538523000015938" 3 exBhRetryOk 2 1
      ⟨"8944538523000015938", Status.success, activatedText⟩ (by decide) rfl
      (fun i hi => match i, hi with
        | 0, _ => ⟨rfl, rfl⟩
        | (n + 1), hi => absurd hi (by omega))
      rfl rfl).1,
    (c6_classified_outcome_final "8944538523000015938" 3 exBhRetryOk 2 1
      ⟨"8944538523000015938", Status.success, activatedText⟩ (by decide) rfl
      (fun i hi => match i, hi with
        | 0, _ => ⟨rfl, rfl⟩
        | (n + 1), hi => absurd hi (by omega))
      rfl rfl).2⟩

/-- C2 counterexample: with a stub whose first attempt raises and whose
second classifies, two attempts run (two pages are opened) but only one
Session is ever opened — the retry runs inside the same browser session
as the failed first attempt, refuting "every attempt runs against a
brand-new Session never used by a previous retry". -/
theorem c2_retry_reuses_session_counterexample :
    ((processIccid "8944538523000015938" 0 exBhRetryOk 2).1).countP
      isAnyOpenPageEv = 2 ∧
    ((processIccid "8944538523000015938" 0 exBhRetryOk 2).1).countP
      isOpenSessionEv = 1 :=
  ⟨rfl, rfl⟩

/-- C2 (amended): each identifier's processing opens exactly one fresh
Session, first thing, and unconditionally closes it at the very end;
within it, every attempt gets a brand-new page (each page id opened at
most once), and every opened page is closed on every exit path. -/
theorem c2_session_per_identifier_page_per_attempt (iccid : String) (sid : Nat)
    (bh : IccidBehavior) (maxRetries : Nat) (hl : bh.launchFails = none) :
    ∃ evs out,
      processIccid iccid sid bh maxRetries =
        (Event.openSession sid :: (evs ++ [Event.closeSession sid]),
         Except.ok out) ∧
      evs.countP isOpenSessionEv = 0 ∧
      evs.countP isCloseSessionEv = 0 ∧
      ∀ p : Nat, evs.countP (isOpenPageEv p) = evs.countP (isClosePageEv p) ∧
        evs.countP (isOpenPageEv p) ≤ 1 := by
  refine ⟨(attemptsFrom iccid sid bh 0 maxRetries ⟨iccid, Status.error, ""⟩).1,
    (attemptsFrom iccid sid bh 0 maxRetries ⟨iccid, Status.error, ""⟩).2,
    processIccid_ok iccid sid bh maxRetries hl, ?_, ?_, ?_⟩
  · exact (attemptsFrom_trace iccid sid bh 0 maxRetries 0
      ⟨iccid, Status.error, ""⟩).1
  · exact (attemptsFrom_trace iccid sid bh 0 maxRetries 0
      ⟨iccid, Status.error, ""⟩).2.1
  · intro p
    exact ⟨(attemptsFrom_trace iccid sid bh p maxRetries 0
        ⟨iccid, Status.error, ""⟩).2.2.1,
      (attemptsFrom_trace iccid sid bh p maxRetries 0
        ⟨iccid, Status.error, ""⟩).2.2.2.1⟩

/-- C2 witness: the session/page discipline instantiated on a concrete
retrying stub. -/
theorem c2_witness :
    exBhRetryOk.launchFails = none ∧
    (∃ evs out,
      processIccid "8944538523000015938" 9 exBhRetryOk 2 =
        (Event.openSession 9 :: (evs ++ [Event.closeSession 9]),
         Except.ok out) ∧
      evs.countP isOpenSessionEv = 0 ∧
      evs.countP isCloseSessionEv = 0 ∧
      ∀ p : Nat, evs.countP (isOpenPageEv p) = evs.countP (isClosePageEv p) ∧
        evs.countP (isOpenPageEv p) ≤ 1) :=
  ⟨rfl, c2_session_per_identifier_page_per_attempt "8944538523000015938" 9
    exBhRetryOk 2 rfl⟩

/-- C1 counterexample: if the browser launch (Session open) fails for the
first identifier, the run rejects: no outcome collection is produced at
all — the failing identifier yields zero outcomes and the second
identifier in the queue is never processed, refuting the claim for
session-open failures. -/
theorem c1_launch_failure_halts_run :
    mainModel ["8944538523000015938", "8944538523000015939"] 1
      (fun _ => exBhLaunchFail) = Except.error "browser launch failed" :=
  rfl

/-- C1 (amended): provided the browser launch succeeds for every scheduled
identifier, the run completes and produces exactly one terminal outcome
per scheduled identifier — never zero, never more than one — under every
pattern of the remaining driver failures; in particular failing
identifiers never halt the rest of the queue. -/
theorem c1_one_outcome_per_identifier (iccids : List String) (K : Nat)
    (bh : String → IccidBehavior) (hK : 0 < K)
    (hl : ∀ id ∈ iccids, (bh id).launchFails = none) :
    ∃ outs, mainModel iccids K bh = Except.ok outs ∧
      ∀ id : String, outs.countP (fun o => o.iccid == id) =
        iccids.countP (fun x => x == id) := by
  obtain ⟨outs, hrun, hcount⟩ := mainModel_ok iccids K bh hK hl
  refine ⟨outs, hrun, fun id => ?_⟩
  rw [hcount (fun o => o.iccid == id)]
  have hpt : ∀ pr ∈ iccids.enum,
      (((attemptsFrom pr.2 pr.1 (bh pr.2) 0 2
        ⟨pr.2, Status.error, ""⟩).2).iccid == id) = (pr.2 == id) := by
    intro pr hpr
    have hi : ((attemptsFrom pr.2 pr.1 (bh pr.2) 0 2
        ⟨pr.2, Status.error, ""⟩).2).iccid = pr.2 :=
      attemptsFrom_iccid pr.2 pr.1 (bh pr.2) 2 0 ⟨pr.2, Status.error, ""⟩ rfl
    rw [hi]
  have step1 := countP_congr_mem
    (fun pr : Nat × String =>
      ((attemptsFrom pr.2 pr.1 (bh pr.2) 0 2 ⟨pr.2, Status.error, ""⟩).2).iccid == id)
    (fun pr : Nat × String => pr.2 == id) iccids.enum hpt
  have hm := List.countP_map (fun x : String => x == id) Prod.snd iccids.enum
  rw [List.enum_map_snd] at hm
  exact step1.trans hm.symm

/-- C1 witness: two identifiers, one of which exhausts its retries with
raised failures, still yield exactly one outcome each. -/
theorem c1_witness :
    (0 : Nat) < 2 ∧
    (∃ outs,
      mainModel ["8944538523000015938", "8944538523000015939"] 2
        (fun _ => exBhRetryOk) = Except.ok outs ∧
      ∀ id : String, outs.countP (fun o => o.iccid == id) =
        (["8944538523000015938", "8944538523000015939"] : List String).countP
          (fun x => x == id)) :=
  ⟨by decide,
    c1_one_outcome_per_identifier ["8944538523000015938", "8944538523000015939"]
      2 (fun _ => exBhRetryOk) (by decide) (fun id _ => rfl)⟩

/-- C7: in every execution of the promise pool over any identifier list
and concurrency bound `K`, at every instant `t` the number of tasks whose
browser session is open never exceeds `K`: tasks chained on one slot are
serialized, so the open sessions at `t` inject into the `K` slots. -/
theorem c7_sessions_bounded_by_K (iccids : List String) (K : Nat)
    (ex : PoolExec) (t : Nat) : (openSessionsAt iccids K ex t).card ≤ K := by
  have hmap : ∀ cj ∈ openSessionsAt iccids K ex t, cj.1 ∈ Finset.range K := by
    intro cj hcj
    have h1 := (Finset.mem_filter.mp hcj).1
    have h2 := (Finset.mem_filter.mp h1).1
    exact (Finset.mem_product.mp h2).1
  have hinj : Set.InjOn (Prod.fst : Nat × Nat → Nat)
      (openSessionsAt iccids K ex t : Finset (Nat × Nat)) := by
    intro a ha b hb hfst
    have ha2 := (Finset.mem_filter.mp (Finset.mem_coe.mp ha)).2
    have hb2 := (Finset.mem_filter.mp (Finset.mem_coe.mp hb)).2
    rcases Nat.lt_trichotomy a.2 b.2 with hab | hab | hab
    · exfalso
      have hfin := poolExec_fin_le_start ex a.1 hab
      have e1 := ha2.2
      have e2 := ex.sess_before_fin a.1 a.2
      have e3 := ex.sess_after_start a.1 b.2
      have e4 : ex.sessOpenT a.1 b.2 ≤ t := by rw [hfst]; exact hb2.1
      omega
    · obtain ⟨a1, a2⟩ := a
      obtain ⟨b1, b2⟩ := b
      simp_all
    · exfalso
      have hfin := poolExec_fin_le_start ex b.1 hab
      have e1 := hb2.2
      have e2 := ex.sess_before_fin b.1 b.2
      have e3 := ex.sess_after_start b.1 a.2
      have e4 : ex.sessOpenT b.1 a.2 ≤ t := by rw [← hfst]; exact ha2.1
      omega
  have hcard := Finset.card_le_card_of_injOn Prod.fst hmap hinj
  simpa using hcard

/-- C8: for every completed run, the run summary is a partition of the
outcome collection: success + already_activated + processing + invalid +
failed equals total, with `failed` counting exactly the
`activation_failed` and `error` outcomes and `invalid` counting exactly
the `invalid_iccid` outcomes. -/
theorem c8_summary_partition (iccids : List String) (K : Nat)
    (bh : String → IccidBehavior) (outs : List Outcome) (hK : 0 < K)
    (hl : ∀ id ∈ iccids, (bh id).launchFails = none)
    (hrun : mainModel iccids K bh = Except.ok outs) :
    (mkSummary iccids.length outs).success +
      (mkSummary iccids.length outs).already_activated +
      (mkSummary iccids.length outs).processing +
      (mkSummary iccids.length outs).invalid +
      (mkSummary iccids.length outs).failed = (mkSummary iccids.length outs).total ∧
    (mkSummary iccids.length outs).invalid =
      (outs.filter (fun r => r.status = Status.invalid_iccid)).length ∧
    (mkSummary iccids.length outs).failed =
      (outs.filter (fun r => r.status = Status.activation_failed ∨
        r.status = Status.error)).length := by
  obtain ⟨outs2, hrun2, hcount⟩ := mainModel_ok iccids K bh hK hl
  rw [hrun] at hrun2
  injection hrun2 with hoo
  subst hoo
  have hlen : outs.length = iccids.length := by
    have hc := hcount (fun _ => true)
    simpa using hc
  refine ⟨?_, rfl, rfl⟩
  have hpart := outcome_status_partition outs
  simp only [mkSummary]
  rw [hpart, hlen]

/-- C8 witness: a concrete completed run of two identifiers whose summary
partitions the outcome collection. -/
theorem c8_witness :
    mainModel ["8944538523000015938", "8944538523000015939"] 1
      (fun _ => exBhOk) =
      Except.ok [⟨"8944538523000015938", Status.success, activatedText⟩,
        ⟨"8944538523000015939", Status.success, activatedText⟩] ∧
    (mkSummary 2 [⟨"8944538523000015938", Status.success, activatedText⟩,
        ⟨"8944538523000015939", Status.success, activatedText⟩]).success +
      (mkSummary 2 [⟨"8944538523000015938", Status.success, activatedText⟩,
        ⟨"8944538523000015939", Status.success, activatedText⟩]).already_activated +
      (mkSummary 2 [⟨"8944538523000015938", Status.success, activatedText⟩,
        ⟨"8944538523000015939", Status.success, activatedText⟩]).processing +
      (mkSummary 2 [⟨"8944538523000015938", Status.success, activatedText⟩,
        ⟨"8944538523000015939", Status.success, activatedText⟩]).invalid +
      (mkSummary 2 [⟨"8944538523000015938", Status.success, activatedText⟩,
        ⟨"8944538523000015939", Status.success, activatedText⟩]).failed =
      (mkSummary 2 [⟨"8944538523000015938", Status.success, activatedText⟩,
        ⟨"8944538523000015939", Status.success, activatedText⟩]).total :=
  ⟨rfl,
    (c8_summary_partition ["8944538523000015938", "8944538523000015939"] 1
      (fun _ => exBhOk)
      [⟨"8944538523000015938", Status.success, activatedText⟩,
        ⟨"8944538523000015939", Status.success, activatedText⟩]
      (by decide) (fun id _ => rfl) rfl).1⟩

end CmlinkNode
